import Mathlib

/-!
Verification of the QuadCast 2 LED control loop (`quadcast2.py`).

The development shallowly embeds the core of `usb_loop`:
  * the per-tick animation computation (lines 52–78 of the source),
  * the frame encoder building the two 64-byte command buffers (lines 80–91),
  * one iteration of the control loop with fault injection on the two
    control transfers (lines 46–96).

Python floats (wall-clock time, wave phase, wave speed) are modelled as
real numbers; Python's `int(, )` truncation toward zero is `pyInt`; machine
bytes stay mathematical integers since all reachable values lie in [0,242].
-/

namespace Quadcast2

/-- Settings snapshot read by the loop each tick: the module globals
`led_enabled`, `led_mode`, `led_effect`, `brightness_raw`, `wave_speed`.
Modes and effects are strings, exactly as in the source. -/
structure Settings where
  led_enabled : Bool
  led_mode : String
  led_effect : String
  brightness_raw : ℕ
  wave_speed : ℝ

/-- Animation state owned by the loop: the global `wave_phase` and the
local `last_effect` (initially `None`). -/
structure AnimState where
  wave_phase : ℝ
  last_effect : Option String

/-- Python `int(x)`: truncation toward zero. -/
noncomputable def pyInt (x : ℝ) : ℤ :=
  if 0 ≤ x then ⌊x⌋ else ⌈x⌉

/-- The wave scaling factor `(np.sin(wave_phase)+1)/2` from line 76. -/
noncomputable def waveFactor (p : ℝ) : ℝ :=
  (Real.sin p + 1) / 2

/-- The blink square wave `int(t*2)%2` from line 71. -/
noncomputable def blinkState (t : ℝ) : ℤ :=
  pyInt (t * 2) % 2

/-- The base `(lower, upper)` pair produced by the zone-mode dispatch on
lines 56–67 when the LEDs are enabled: both start at 0 and the chain of
string comparisons overwrites them. -/
def basePair (s : Settings) : ℤ × ℤ :=
  if s.led_mode = "bottom" then ((s.brightness_raw : ℤ), 0)
  else if s.led_mode = "top" then (0, (s.brightness_raw : ℤ))
  else if s.led_mode = "both" then ((s.brightness_raw : ℤ), (s.brightness_raw : ℤ))
  else (0, 0)

/-- One tick of the animation computation, lines 52–78 of the source:
effect-transition reset, zone-mode dispatch, effect transform.  Returns
the `(lower, upper)` pair and the updated animation state. -/
noncomputable def computeTick (s : Settings) (t : ℝ) (st : AnimState) :
    (ℤ × ℤ) × AnimState :=
  let st1 := if some s.led_effect ≠ st.last_effect
             then { wave_phase := 0, last_effect := some s.led_effect }
             else st
  if s.led_enabled then
    let base := basePair s
    if s.led_effect = "blink" then
      ((base.1 * blinkState t, base.2 * blinkState t), st1)
    else if s.led_effect = "wave" then
      let phase := st1.wave_phase + 0.05 * s.wave_speed
      ((pyInt ((base.1 : ℝ) * waveFactor phase),
        pyInt ((base.2 : ℝ) * waveFactor phase)),
       { st1 with wave_phase := phase })
    else (base, st1)
  else ((0, 0), st1)

/-- The brightness command buffer, lines 80–84: `bytearray(64)` of zeros
with `cmd[0]=0x81`, `cmd[1]=lower`, `cmd[4]=0x81`, `cmd[5]=upper`. -/
def brightnessCmd (lower upper : ℤ) : List ℤ :=
  ((((List.replicate 64 (0 : ℤ)).set 0 0x81).set 1 lower).set 4 0x81).set 5 upper

/-- The heartbeat command buffer, lines 87–90: `bytearray(64)` of zeros
with `hb[0]=0x04`, `hb[1]=max(lower,upper)`, `hb[8]=0x01`. -/
def heartbeatCmd (lower upper : ℤ) : List ℤ :=
  (((List.replicate 64 (0 : ℤ)).set 0 0x04).set 1 (max lower upper)).set 8 0x01

/-- Outcome injected for one `dev.ctrl_transfer` call. -/
inductive TransferOutcome
  | ok
  | usbError
deriving DecidableEq

/-- Observable result of one iteration of the `while running` loop body:
the animation state afterwards, whether the interface is still claimed
when the iteration ends, the duration passed to `time.sleep`, and the
buffers successfully handed to `ctrl_transfer`. -/
structure TickResult where
  state : AnimState
  claimed : Bool
  sleep : ℚ
  sent : List (List ℤ)

/-- One iteration of the loop body, lines 46–96, with outcomes `f1` for
the brightness transfer (line 85) and `f2` for the heartbeat transfer
(line 91).  A `usb.core.USBError` raised by a transfer jumps to the
`except` handler, which only sleeps 0.5 s: the `release_interface` call
on line 93 and the 0.05 s sleep on line 94 are skipped. -/
noncomputable def usbTick (s : Settings) (t : ℝ) (st : AnimState)
    (f1 f2 : TransferOutcome) : TickResult :=
  let r := computeTick s t st
  let cmd := brightnessCmd r.1.1 r.1.2
  match f1 with
  | .usbError => { state := r.2, claimed := true, sleep := 1/2, sent := [] }
  | .ok =>
    let hb := heartbeatCmd r.1.1 r.1.2
    match f2 with
    | .usbError => { state := r.2, claimed := true, sleep := 1/2, sent := [cmd] }
    | .ok => { state := r.2, claimed := false, sleep := 1/20, sent := [cmd, hb] }

/-! ### Helper lemmas -/

/-- When the enabled flag is off, the tick outputs the initial `(0, 0)`. -/
theorem computeTick_not_enabled (s : Settings) (t : ℝ) (st : AnimState)
    (h : s.led_enabled = false) : (computeTick s t st).1 = (0, 0) := by
  simp [computeTick, h]

/-- The brightness buffer in head-normal cons form. -/
theorem brightnessCmd_eq (l u : ℤ) : brightnessCmd l u =
    0x81 :: l :: 0 :: 0 :: 0x81 :: u :: List.replicate 58 0 := rfl

/-- The heartbeat buffer in head-normal cons form. -/
theorem heartbeatCmd_eq (l u : ℤ) : heartbeatCmd l u =
    0x04 :: max l u :: 0 :: 0 :: 0 :: 0 :: 0 :: 0 :: 0x01 :: List.replicate 55 0 := rfl

/-- Reading inside a replicate block gives the replicated element. -/
theorem getD_replicate_of_lt (k n : ℕ) (a d : ℤ) (h : n < k) :
    (List.replicate k a).getD n d = a := by
  rw [List.getD_eq_getElem?_getD, List.getElem?_replicate, if_pos h]
  rfl

/-- The blink square wave always takes value 0 or 1. -/
theorem blinkState_zero_or_one (t : ℝ) : blinkState t = 0 ∨ blinkState t = 1 := by
  unfold blinkState
  omega

/-- For nonnegative time the blink square wave is `⌊t*2⌋ % 2`. -/
theorem blinkState_eq_floor (t : ℝ) (h : 0 ≤ t) :
    blinkState t = ⌊t * 2⌋ % 2 := by
  rw [blinkState, pyInt, if_pos (by positivity)]

/-- Half a time unit later the blink square wave flips. -/
theorem blinkState_flip (t : ℝ) (h : 0 ≤ t) :
    blinkState (t + 1/2) = 1 - blinkState t := by
  rw [blinkState, blinkState, pyInt, pyInt, if_pos (by positivity),
    if_pos (by positivity)]
  rw [show ((t + 1/2) * 2) = t * 2 + 1 by ring]
  rw [Int.floor_add_one]
  omega

/-- The wave factor at phase 0 is one half. -/
theorem waveFactor_zero : waveFactor 0 = 1/2 := by
  simp [waveFactor]

/-- Truncation of `b` times the phase-0 factor is integer halving. -/
theorem pyInt_half (b : ℕ) : pyInt ((b : ℝ) * waveFactor 0) = (b : ℤ) / 2 := by
  rw [waveFactor_zero, pyInt, if_pos (by positivity)]
  rw [show ((b:ℝ) * (1/2)) = (b:ℝ)/2 by ring]
  rw [show ((b:ℝ)/2) = (((b:ℚ)/((2:ℕ):ℚ) : ℚ) : ℝ) by push_cast; ring]
  rw [Rat.floor_cast, Rat.floor_natCast_div_natCast]
  push_cast
  rfl

/-! ### Claim C2: the frame encoder -/

/-- C2: for every pair `(lower, upper)` with both components in `[0, 242]`,
the encoder produces exactly two 64-byte buffers: the brightness command
has byte 0 = `0x81`, byte 1 = `lower`, byte 4 = `0x81`, byte 5 = `upper`
and every other byte zero; the heartbeat command has byte 0 = `0x04`,
byte 1 = `max lower upper`, byte 8 = `0x01` and every other byte zero;
and at `(120, 200)` the buffers equal the byte vectors stated in the
spec. -/
theorem c2_encoder_buffers (l u : ℤ)
    (hl0 : 0 ≤ l) (hl : l ≤ 242) (hu0 : 0 ≤ u) (hu : u ≤ 242) :
    (brightnessCmd l u).length = 64 ∧ (heartbeatCmd l u).length = 64 ∧
    (brightnessCmd l u).getD 0 7 = 0x81 ∧ (brightnessCmd l u).getD 1 7 = l ∧
    (brightnessCmd l u).getD 4 7 = 0x81 ∧ (brightnessCmd l u).getD 5 7 = u ∧
    (∀ i, i < 64 → i ≠ 0 → i ≠ 1 → i ≠ 4 → i ≠ 5 →
      (brightnessCmd l u).getD i 7 = 0) ∧
    (heartbeatCmd l u).getD 0 7 = 0x04 ∧
    (heartbeatCmd l u).getD 1 7 = max l u ∧
    (heartbeatCmd l u).getD 8 7 = 0x01 ∧
    (∀ i, i < 64 → i ≠ 0 → i ≠ 1 → i ≠ 8 →
      (heartbeatCmd l u).getD i 7 = 0) ∧
    brightnessCmd 120 200 = [0x81, 120, 0, 0, 0x81, 200] ++ List.replicate 58 0 ∧
    heartbeatCmd 120 200 = [0x04, 200, 0, 0, 0, 0, 0, 0, 0x01] ++ List.replicate 55 0 := by
  refine ⟨rfl, rfl, rfl, rfl, rfl, rfl, ?_, rfl, rfl, rfl, ?_, by decide, by decide⟩
  · intro i h h0 h1 h4 h5
    rw [brightnessCmd_eq]
    match i, h0, h1, h4, h5 with
    | 2, _, _, _, _ => rfl
    | 3, _, _, _, _ => rfl
    | (n+6), _, _, _, _ =>
      simp only [List.getD_cons_succ]
      exact getD_replicate_of_lt 58 n 0 7 (by omega)
  · intro i h h0 h1 h8
    rw [heartbeatCmd_eq]
    match i, h0, h1, h8 with
    | 2, _, _, _ => rfl
    | 3, _, _, _ => rfl
    | 4, _, _, _ => rfl
    | 5, _, _, _ => rfl
    | 6, _, _, _ => rfl
    | 7, _, _, _ => rfl
    | (n+9), _, _, _ =>
      simp only [List.getD_cons_succ]
      exact getD_replicate_of_lt 55 n 0 7 (by omega)

/-- Witness for C2 at `(lower, upper) = (120, 200)`. -/
theorem c2_encoder_buffers_witness :
    (brightnessCmd 120 200).length = 64 ∧ (heartbeatCmd 120 200).length = 64 ∧
    (brightnessCmd 120 200).getD 0 7 = 0x81 ∧ (brightnessCmd 120 200).getD 1 7 = 120 ∧
    (brightnessCmd 120 200).getD 4 7 = 0x81 ∧ (brightnessCmd 120 200).getD 5 7 = 200 ∧
    (∀ i, i < 64 → i ≠ 0 → i ≠ 1 → i ≠ 4 → i ≠ 5 →
      (brightnessCmd 120 200).getD i 7 = 0) ∧
    (heartbeatCmd 120 200).getD 0 7 = 0x04 ∧
    (heartbeatCmd 120 200).getD 1 7 = max 120 200 ∧
    (heartbeatCmd 120 200).getD 8 7 = 0x01 ∧
    (∀ i, i < 64 → i ≠ 0 → i ≠ 1 → i ≠ 8 →
      (heartbeatCmd 120 200).getD i 7 = 0) ∧
    brightnessCmd 120 200 = [0x81, 120, 0, 0, 0x81, 200] ++ List.replicate 58 0 ∧
    heartbeatCmd 120 200 = [0x04, 200, 0, 0, 0, 0, 0, 0, 0x01] ++ List.replicate 55 0 :=
  c2_encoder_buffers 120 200 (by decide) (by decide) (by decide) (by decide)

/-! ### Claim C3: disabled output is (0,0) -/

/-- C3: for every zone mode, effect, brightness and phase state, if the
enabled flag is false the tick outputs the intensity pair `(0, 0)`. -/
theorem c3_disabled_output_zero (s : Settings) (t : ℝ) (st : AnimState)
    (h : s.led_enabled = false) : (computeTick s t st).1 = (0, 0) :=
  computeTick_not_enabled s t st h

/-- Witness for C3 at a disabled wave configuration. -/
theorem c3_disabled_output_zero_witness :
    (computeTick ⟨false, "both", "wave", 242, 1⟩ 0 ⟨0, some "blink"⟩).1 = (0, 0) :=
  c3_disabled_output_zero ⟨false, "both", "wave", 242, 1⟩ 0 ⟨0, some "blink"⟩ rfl

/-! ### Claim C4: static outputs per zone mode -/

/-- C4: for every brightness `b ≤ 242`, with the LEDs enabled and the
static effect, the tick outputs `(b, 0)` for mode bottom, `(0, b)` for
mode top and `(b, b)` for mode both. -/
theorem c4_static_outputs (b : ℕ) (ws t : ℝ) (st : AnimState) (hb : b ≤ 242) :
    (computeTick ⟨true, "bottom", "static", b, ws⟩ t st).1 = ((b : ℤ), 0) ∧
    (computeTick ⟨true, "top", "static", b, ws⟩ t st).1 = (0, (b : ℤ)) ∧
    (computeTick ⟨true, "both", "static", b, ws⟩ t st).1 = ((b : ℤ), (b : ℤ)) := by
  refine ⟨?_, ?_, ?_⟩ <;> simp [computeTick, basePair]

/-- Witness for C4 at brightness 242. -/
theorem c4_static_outputs_witness :
    (computeTick ⟨true, "bottom", "static", 242, 1⟩ 0 ⟨0, some "static"⟩).1 = ((242 : ℤ), 0) ∧
    (computeTick ⟨true, "top", "static", 242, 1⟩ 0 ⟨0, some "static"⟩).1 = (0, (242 : ℤ)) ∧
    (computeTick ⟨true, "both", "static", 242, 1⟩ 0 ⟨0, some "static"⟩).1 = ((242 : ℤ), (242 : ℤ)) :=
  c4_static_outputs 242 1 0 ⟨0, some "static"⟩ (by decide)

/-! ### Claim C5: the wave effect -/

/-- C5: with the LEDs enabled, the wave effect active and no effect
transition pending, a tick first advances the phase by
`0.05 * waveSpeed` and then outputs the static-equivalent base pair
scaled by `waveFactor` at the new phase, truncated toward zero; the
factor is periodic in the phase with period `2π`; and evaluated at phase
0 the factor is `1/2`, so the output is the integer halving (truncation
of `0.5 ×`) of the base value. -/
theorem c5_wave_effect (s : Settings) (t : ℝ) (st : AnimState)
    (he : s.led_enabled = true) (hw : s.led_effect = "wave")
    (hl : st.last_effect = some "wave") :
    (computeTick s t st).2.wave_phase = st.wave_phase + 0.05 * s.wave_speed ∧
    (computeTick s t st).1 =
      (pyInt (((basePair s).1 : ℝ) * waveFactor (st.wave_phase + 0.05 * s.wave_speed)),
       pyInt (((basePair s).2 : ℝ) * waveFactor (st.wave_phase + 0.05 * s.wave_speed))) ∧
    (∀ x : ℝ, waveFactor (x + 2 * Real.pi) = waveFactor x) ∧
    waveFactor 0 = 1/2 ∧
    (∀ b : ℕ, pyInt ((b : ℝ) * waveFactor 0) = (b : ℤ) / 2) := by
  refine ⟨?_, ?_, ?_, waveFactor_zero, pyInt_half⟩
  · simp [computeTick, he, hw, hl]
  · simp [computeTick, he, hw, hl]
  · intro x
    simp [waveFactor, Real.sin_add_two_pi]

/-- Witness for C5: enabled wave tick on mode bottom at phase 0. -/
theorem c5_wave_effect_witness :
    (computeTick ⟨true, "bottom", "wave", 242, 1⟩ 0 ⟨0, some "wave"⟩).2.wave_phase
      = 0 + 0.05 * 1 ∧
    (computeTick ⟨true, "bottom", "wave", 242, 1⟩ 0 ⟨0, some "wave"⟩).1 =
      (pyInt (((basePair ⟨true, "bottom", "wave", 242, 1⟩).1 : ℝ) * waveFactor (0 + 0.05 * 1)),
       pyInt (((basePair ⟨true, "bottom", "wave", 242, 1⟩).2 : ℝ) * waveFactor (0 + 0.05 * 1))) ∧
    (∀ x : ℝ, waveFactor (x + 2 * Real.pi) = waveFactor x) ∧
    waveFactor 0 = 1/2 ∧
    (∀ b : ℕ, pyInt ((b : ℝ) * waveFactor 0) = (b : ℤ) / 2) :=
  c5_wave_effect ⟨true, "bottom", "wave", 242, 1⟩ 0 ⟨0, some "wave"⟩ rfl rfl rfl

/-! ### Claim C6: the blink effect -/

/-- C6: with the LEDs enabled, the blink effect active and `t ≥ 0`, the
tick outputs the static-equivalent base pair multiplied componentwise by
the single square-wave value `⌊t*2⌋ % 2`; hence the output is exactly
`(0,0)` or exactly the base pair, the square wave only takes values 0
and 1, and it flips every half time unit (period 0.5, i.e. 2 Hz). -/
theorem c6_blink_effect (s : Settings) (t : ℝ) (st : AnimState)
    (he : s.led_enabled = true) (hb : s.led_effect = "blink") (ht : 0 ≤ t) :
    (computeTick s t st).1 =
      ((basePair s).1 * (⌊t * 2⌋ % 2), (basePair s).2 * (⌊t * 2⌋ % 2)) ∧
    ((computeTick s t st).1 = (0, 0) ∨ (computeTick s t st).1 = basePair s) ∧
    (blinkState t = 0 ∨ blinkState t = 1) ∧
    blinkState (t + 1/2) = 1 - blinkState t := by
  have hfl := blinkState_eq_floor t ht
  refine ⟨?_, ?_, blinkState_zero_or_one t, blinkState_flip t ht⟩
  · simp [computeTick, he, hb, hfl]
  · rcases blinkState_zero_or_one t with h0 | h1
    · left
      simp [computeTick, he, hb, h0]
    · right
      simp [computeTick, he, hb, h1]

/-- Witness for C6: enabled blink tick on mode both at time 0. -/
theorem c6_blink_effect_witness :
    (computeTick ⟨true, "both", "blink", 242, 1⟩ 0 ⟨0, some "blink"⟩).1 =
      ((basePair ⟨true, "both", "blink", 242, 1⟩).1 * (⌊(0:ℝ) * 2⌋ % 2),
       (basePair ⟨true, "both", "blink", 242, 1⟩).2 * (⌊(0:ℝ) * 2⌋ % 2)) ∧
    ((computeTick ⟨true, "both", "blink", 242, 1⟩ 0 ⟨0, some "blink"⟩).1 = (0, 0) ∨
     (computeTick ⟨true, "both", "blink", 242, 1⟩ 0 ⟨0, some "blink"⟩).1 =
       basePair ⟨true, "both", "blink", 242, 1⟩) ∧
    (blinkState 0 = 0 ∨ blinkState 0 = 1) ∧
    blinkState ((0:ℝ) + 1/2) = 1 - blinkState 0 :=
  c6_blink_effect ⟨true, "both", "blink", 242, 1⟩ 0 ⟨0, some "blink"⟩ rfl rfl le_rfl

/-! ### Claim C7: effect transitions reset the phase -/

/-- C7: on every tick whose observed effect differs from the stored last
effect — including a return to a previously used effect, and regardless
of the enabled flag — the tick behaves exactly as if it started from the
state with phase 0 and last effect updated to the observed effect, and
the resulting state records the observed effect. -/
theorem c7_transition_resets_phase (s : Settings) (t : ℝ) (st : AnimState)
    (h : some s.led_effect ≠ st.last_effect) :
    computeTick s t st = computeTick s t ⟨0, some s.led_effect⟩ ∧
    (computeTick s t st).2.last_effect = some s.led_effect := by
  have heq : computeTick s t st = computeTick s t ⟨0, some s.led_effect⟩ := by
    simp only [computeTick, if_pos h]
    simp
  refine ⟨heq, ?_⟩
  rw [heq]
  by_cases he : s.led_enabled <;> by_cases hb : s.led_effect = "blink" <;>
    by_cases hw : s.led_effect = "wave" <;> simp [computeTick, he, hb, hw]

/-- Witness for C7: a Wave→Blink→Wave style return transition, with the
LEDs disabled, from a nonzero phase. -/
theorem c7_transition_resets_phase_witness :
    computeTick ⟨false, "both", "wave", 242, 1⟩ 0 ⟨3, some "blink"⟩ =
      computeTick ⟨false, "both", "wave", 242, 1⟩ 0 ⟨0, some "wave"⟩ ∧
    (computeTick ⟨false, "both", "wave", 242, 1⟩ 0 ⟨3, some "blink"⟩).2.last_effect
      = some "wave" :=
  c7_transition_resets_phase ⟨false, "both", "wave", 242, 1⟩ 0 ⟨3, some "blink"⟩ (by decide)

/-! ### Claim C8: wave phase monotonicity -/

/-- C8 counterexample: with the LEDs disabled, effect wave, last effect
wave and wave speed 1 the phase does not advance — the claim's assertion
that the phase strictly increases regardless of the enabled flag fails
at this input. -/
theorem c8_counterexample :
    ¬ ((⟨0, some "wave"⟩ : AnimState).wave_phase <
       (computeTick ⟨false, "both", "wave", 24, 1⟩ 0 ⟨0, some "wave"⟩).2.wave_phase) := by
  have h : (computeTick ⟨false, "both", "wave", 24, 1⟩ 0 ⟨0, some "wave"⟩).2.wave_phase
      = 0 := by
    simp [computeTick]
  rw [h]
  exact lt_irrefl _

/-- C8 amended: on a tick whose effect is wave and matches the stored
last effect, with positive wave speed, the phase strictly increases when
the LEDs are enabled; when they are disabled the phase is unchanged
(the advance sits inside the enabled branch). -/
theorem c8_wave_phase_monotone (s : Settings) (t : ℝ) (st : AnimState)
    (hw : s.led_effect = "wave") (hl : st.last_effect = some "wave")
    (hs : 0 < s.wave_speed) :
    (s.led_enabled = true → st.wave_phase < (computeTick s t st).2.wave_phase) ∧
    (s.led_enabled = false → (computeTick s t st).2.wave_phase = st.wave_phase) := by
  constructor
  · intro he
    have h : (computeTick s t st).2.wave_phase = st.wave_phase + 0.05 * s.wave_speed := by
      simp [computeTick, he, hw, hl]
    rw [h]
    nlinarith
  · intro he
    simp [computeTick, he, hw, hl]

/-- Witness for C8 amended, at wave speed 1 from phase 0. -/
theorem c8_wave_phase_monotone_witness :
    ((⟨true, "both", "wave", 24, 1⟩ : Settings).led_enabled = true →
      (⟨0, some "wave"⟩ : AnimState).wave_phase <
        (computeTick ⟨true, "both", "wave", 24, 1⟩ 0 ⟨0, some "wave"⟩).2.wave_phase) ∧
    ((⟨true, "both", "wave", 24, 1⟩ : Settings).led_enabled = false →
      (computeTick ⟨true, "both", "wave", 24, 1⟩ 0 ⟨0, some "wave"⟩).2.wave_phase
        = (⟨0, some "wave"⟩ : AnimState).wave_phase) :=
  c8_wave_phase_monotone ⟨true, "both", "wave", 24, 1⟩ 0 ⟨0, some "wave"⟩ rfl rfl
    (by norm_num)

/-! ### Claim C9: unknown zone modes -/

/-- C9: if the zone-mode string is none of "bottom", "top", "both", the
tick computation is still total and outputs `(0, 0)` even with the LEDs
enabled and positive brightness: no dispatch branch overwrites the
initial zeros, and every effect transform maps `(0, 0)` to `(0, 0)`. -/
theorem c9_unknown_mode_zero (s : Settings) (t : ℝ) (st : AnimState)
    (he : s.led_enabled = true) (h1 : s.led_mode ≠ "bottom")
    (h2 : s.led_mode ≠ "top") (h3 : s.led_mode ≠ "both") :
    (computeTick s t st).1 = (0, 0) := by
  have hbase : basePair s = (0, 0) := by
    simp [basePair, h1, h2, h3]
  by_cases hb : s.led_effect = "blink"
  · simp [computeTick, he, hb, hbase]
  · by_cases hw : s.led_effect = "wave"
    · simp [computeTick, he, hb, hw, hbase, pyInt]
    · simp [computeTick, he, hb, hw, hbase]

/-- Witness for C9 at the misspelled mode "bototm" with full brightness. -/
theorem c9_unknown_mode_zero_witness :
    (computeTick ⟨true, "bototm", "static", 242, 1⟩ 0 ⟨0, some "static"⟩).1 = (0, 0) :=
  c9_unknown_mode_zero ⟨true, "bototm", "static", 242, 1⟩ 0 ⟨0, some "static"⟩
    rfl (by decide) (by decide) (by decide)

/-! ### Claim C1: transfer failure handling -/

/-- C1 counterexample: when the brightness transfer raises
`usb.core.USBError`, the `except` handler on lines 95–96 runs without
executing the `release_interface` call on line 93, so the interface is
still claimed at the end of the iteration — refuting the claim that the
interface is released (never left claimed) before backing off. -/
theorem c1_counterexample :
    ¬ ((usbTick ⟨true, "bottom", "static", 24, 1⟩ 0 ⟨0, some "static"⟩
        .usbError .ok).claimed = false) := by
  simp [usbTick]

/-- C1 amended: if either control transfer fails mid-tick, the loop
skips the rest of the tick, leaving the interface claimed (the release
on the normal path is not executed), and sleeps the extended 500 ms
backoff instead of the normal 50 ms cadence before the next tick. -/
theorem c1_fail_backoff (s : Settings) (t : ℝ) (st : AnimState)
    (f1 f2 : TransferOutcome) (h : f1 = .usbError ∨ f2 = .usbError) :
    (usbTick s t st f1 f2).claimed = true ∧
    (usbTick s t st f1 f2).sleep = 1/2 := by
  rcases h with h | h
  · subst h
    exact ⟨rfl, rfl⟩
  · subst h
    cases f1
    · exact ⟨rfl, rfl⟩
    · exact ⟨rfl, rfl⟩

/-- Witness for C1 amended: heartbeat transfer fails. -/
theorem c1_fail_backoff_witness :
    (usbTick ⟨true, "bottom", "static", 24, 1⟩ 0 ⟨0, some "static"⟩
      .ok .usbError).claimed = true ∧
    (usbTick ⟨true, "bottom", "static", 24, 1⟩ 0 ⟨0, some "static"⟩
      .ok .usbError).sleep = 1/2 :=
  c1_fail_backoff ⟨true, "bottom", "static", 24, 1⟩ 0 ⟨0, some "static"⟩
    .ok .usbError (Or.inr rfl)

/-! ### Claim C10: disabled LEDs still transmit -/

/-- C10: on a successful tick with the LEDs disabled, the loop still
sends both commands in order — the brightness command with bytes 1 and 5
zero and the heartbeat command with byte 1 zero — and then sleeps the
normal 50 ms cadence. -/
theorem c10_disabled_still_sends (s : Settings) (t : ℝ) (st : AnimState)
    (h : s.led_enabled = false) :
    (usbTick s t st .ok .ok).sent = [brightnessCmd 0 0, heartbeatCmd 0 0] ∧
    (brightnessCmd 0 0).getD 1 7 = 0 ∧ (brightnessCmd 0 0).getD 5 7 = 0 ∧
    (heartbeatCmd 0 0).getD 1 7 = 0 ∧
    (usbTick s t st .ok .ok).sleep = 1/20 := by
  have h0 := computeTick_not_enabled s t st h
  refine ⟨?_, rfl, rfl, rfl, rfl⟩
  simp [usbTick, h0]

/-- Witness for C10 with a disabled blink configuration. -/
theorem c10_disabled_still_sends_witness :
    (usbTick ⟨false, "both", "blink", 242, 1⟩ 0 ⟨0, some "blink"⟩ .ok .ok).sent
      = [brightnessCmd 0 0, heartbeatCmd 0 0] ∧
    (brightnessCmd 0 0).getD 1 7 = 0 ∧ (brightnessCmd 0 0).getD 5 7 = 0 ∧
    (heartbeatCmd 0 0).getD 1 7 = 0 ∧
    (usbTick ⟨false, "both", "blink", 242, 1⟩ 0 ⟨0, some "blink"⟩ .ok .ok).sleep = 1/20 :=
  c10_disabled_still_sends ⟨false, "both", "blink", 242, 1⟩ 0 ⟨0, some "blink"⟩ rfl

end Quadcast2
